import Mathlib

/-!
Verification of the task-lifecycle manager of the PDFTranslate-Team service.

Shallow embedding of `app/tasks.py` (class `TaskManager`), `app/redis_client.py`
(class `RedisClient`), `app/settings_manager.py` (`get_s3_config`) and the
performance-settings route of `app/routes/settings.py`.

Conventions of the embedding:
- The Redis server state is a list of named lists (`RedisLists`), keyed by the
  full Redis key string, matching the `f"tasks:{priority}"` keys of the code.
  `lpush` prepends, `rpop` pops the last element, `lrem 0` removes every
  occurrence, exactly as the Redis commands used by `RedisClient`.
- A task row (`Task`) carries the columns of `TranslationTask` that the
  verified operations read or write; timestamps are naturals.
- Each facade operation returns its updated system state together with the
  list of externally visible effects it performed, in program order
  (`Effect`): durable row writes/deletes, cache invalidations, status-cache
  writes, websocket notifications, queue operations, blob operations and
  in-flight-job bookkeeping.  Fire-and-forget failures (cache, websocket)
  are not modelled as distinct outcomes because the code swallows them.
-/

namespace PDFTranslate

/-- One row of the `translation_tasks` table (`app/models.py`, class
`TranslationTask`), restricted to the columns read or written by the
operations verified here.  `completed_at` is an optional timestamp. -/
structure Task where
  id : String
  owner_id : String
  priority : String
  status : String
  progress : Nat
  progress_message : Option String
  error : Option String
  completed_at : Option Nat
  input_s3_key : Option String
  output_s3_key : Option String
  output_url : Option String
  mono_output_s3_key : Option String
  mono_output_url : Option String
  dual_output_s3_key : Option String
  dual_output_url : Option String
  glossary_output_s3_key : Option String
  glossary_output_url : Option String
  zip_output_s3_key : Option String
  zip_output_url : Option String
  markdown_output_s3_key : Option String
  markdown_output_url : Option String
  translated_markdown_s3_key : Option String
  translated_markdown_url : Option String
  mineru_task_id : Option String
  deriving DecidableEq, Repr

/-- The Redis server: an association list from key to the stored list, in the
style of `redis_client.py` where each priority owns the key `tasks:{p}`. -/
def RedisLists := List (String × List String)

instance : DecidableEq RedisLists := by
  unfold RedisLists; infer_instance

instance : Repr RedisLists := by
  unfold RedisLists; infer_instance

/-- Value of a Redis list key; a key that was never written holds `[]`. -/
def lget : RedisLists → String → List String
  | [], _ => []
  | (k, l) :: rest, key => if k = key then l else lget rest key

/-- Overwrite a Redis list key. -/
def lset : RedisLists → String → List String → RedisLists
  | [], key, l => [(key, l)]
  | (k, l0) :: rest, key, l =>
      if k = key then (key, l) :: rest else (k, l0) :: lset rest key l

/-- `RedisClient.enqueue_task`: `LPUSH tasks:{priority} task_id`. -/
def enqueue_task (r : RedisLists) (task_id : String) (priority : String) : RedisLists :=
  let key := "tasks:" ++ priority
  lset r key (task_id :: lget r key)

/-- `RedisClient.dequeue_task`: `RPOP tasks:{priority}` — returns the popped
id (if any) and the remaining server state. -/
def dequeue_task (r : RedisLists) (priority : String) : Option String × RedisLists :=
  let key := "tasks:" ++ priority
  match (lget r key).getLast? with
  | none => (none, r)
  | some x => (some x, lset r key (lget r key).dropLast)

/-- `RedisClient.remove_task_from_all_queues`: `LREM tasks:{p} 0 task_id` for
each of the three priorities, removing every occurrence. -/
def remove_task_from_all_queues (r : RedisLists) (task_id : String) : RedisLists :=
  ["high", "normal", "low"].foldl
    (fun acc p =>
      let key := "tasks:" ++ p
      lset acc key ((lget acc key).filter (fun x => x ≠ task_id)))
    r

theorem lget_lset_self (r : RedisLists) (k : String) (l : List String) :
    lget (lset r k l) k = l := by
  induction r with
  | nil => simp [lget, lset]
  | cons hd tl ih =>
    obtain ⟨k0, l0⟩ := hd
    by_cases h : k0 = k
    · simp [lget, lset, h]
    · simp [lget, lset, h, ih]

theorem lget_lset_other (r : RedisLists) (k k' : String) (l : List String)
    (h : k ≠ k') : lget (lset r k l) k' = lget r k' := by
  induction r with
  | nil => simp [lget, lset, h]
  | cons hd tl ih =>
    obtain ⟨k0, l0⟩ := hd
    by_cases h0 : k0 = k
    · subst h0; simp [lget, lset, h]
    · simp [lset, h0, lget, ih]

/-- Stored S3 settings (`settings_manager.get_s3_config` reads these from the
`system_settings` table; an absent setting is the empty string). -/
structure S3Config where
  endpoint : String
  access_key : String
  secret_key : String
  bucket : String
  region : String
  deriving DecidableEq, Repr

/-- `get_s3_config(strict=True)` raises `MissingS3Configuration` iff one of
`REQUIRED_S3_FIELDS = (access_key, secret_key, bucket)` is empty. -/
def s3_strict_ok (c : S3Config) : Bool :=
  c.access_key != "" && c.secret_key != "" && c.bucket != ""

/-- `get_s3_config` defaults an empty region to `DEFAULT_S3_REGION`. -/
def effective_region (c : S3Config) : String :=
  if c.region = "" then "us-east-1" else c.region

/-- `TaskManager.delete_task` builds an S3 client only when
`access_key, secret_key, bucket, region` are all non-empty in the non-strict
config (whose region has already been defaulted). -/
def s3_delete_ready (c : S3Config) : Bool :=
  c.access_key != "" && c.secret_key != "" && c.bucket != "" &&
    effective_region c != ""

/-- Externally visible side effects of one facade operation, in program
order.  `dbWrite st` is a committed row update recording the row's status
after the write; `dbInsert`/`dbDelete` are committed row creation/removal. -/
inductive Effect where
  | dbWrite (status : String)
  | dbInsert
  | dbDelete
  | cacheInvalidate
  | statusCacheWrite
  | statusCacheDelete
  | notify
  | enqueue (task_id priority : String)
  | queueRemove (task_id : String)
  | cancelJob (task_id : String)
  | spawnJob (task_id : String)
  | blobPut
  | blobDelete (key : String)
  | blobDeleteFolder
  deriving DecidableEq, Repr

/-- Whole-system state: the task table, the Redis server, the in-flight job
map (`TaskManager.jobs`, modelled by its key set), the concurrency cap
(`TaskManager.max_concurrent_tasks`) and the stored S3 settings. -/
structure SysState where
  tasks : List Task
  redis : RedisLists
  jobs : List String
  max_concurrent_tasks : Nat
  s3 : S3Config
  settings : List (String × String)
  deriving DecidableEq, Repr

/-- `TaskManager.__init__` hard-codes the concurrency cap
(`self.max_concurrent_tasks = 3`); it is never read from the settings
store. -/
def taskManager_init_max_concurrent : Nat := 3

/-- The keyword arguments that call sites of `TaskManager._update_task` pass
(outer `Option` = whether the argument was passed; inner `Option` = the value,
which may itself be Python `None`). -/
structure TaskUpdates where
  status : Option String := none
  progress : Option Nat := none
  progress_message : Option (Option String) := none
  error : Option (Option String) := none
  output_s3_key : Option (Option String) := none
  output_url : Option (Option String) := none
  mono_output_s3_key : Option (Option String) := none
  mono_output_url : Option (Option String) := none
  dual_output_s3_key : Option (Option String) := none
  dual_output_url : Option (Option String) := none
  glossary_output_s3_key : Option (Option String) := none
  glossary_output_url : Option (Option String) := none
  zip_output_s3_key : Option (Option String) := none
  zip_output_url : Option (Option String) := none
  markdown_output_s3_key : Option (Option String) := none
  markdown_output_url : Option (Option String) := none
  translated_markdown_s3_key : Option (Option String) := none
  translated_markdown_url : Option (Option String) := none
  mineru_task_id : Option String := none
  deriving DecidableEq, Repr

/-- The `setattr` loop of `_update_task`: apply exactly the passed kwargs. -/
def applyUpdates (t : Task) (u : TaskUpdates) : Task :=
  { t with
    status := u.status.getD t.status
    progress := u.progress.getD t.progress
    progress_message := u.progress_message.getD t.progress_message
    error := u.error.getD t.error
    output_s3_key := u.output_s3_key.getD t.output_s3_key
    output_url := u.output_url.getD t.output_url
    mono_output_s3_key := u.mono_output_s3_key.getD t.mono_output_s3_key
    mono_output_url := u.mono_output_url.getD t.mono_output_url
    dual_output_s3_key := u.dual_output_s3_key.getD t.dual_output_s3_key
    dual_output_url := u.dual_output_url.getD t.dual_output_url
    glossary_output_s3_key := u.glossary_output_s3_key.getD t.glossary_output_s3_key
    glossary_output_url := u.glossary_output_url.getD t.glossary_output_url
    zip_output_s3_key := u.zip_output_s3_key.getD t.zip_output_s3_key
    zip_output_url := u.zip_output_url.getD t.zip_output_url
    markdown_output_s3_key := u.markdown_output_s3_key.getD t.markdown_output_s3_key
    markdown_output_url := u.markdown_output_url.getD t.markdown_output_url
    translated_markdown_s3_key :=
      u.translated_markdown_s3_key.getD t.translated_markdown_s3_key
    translated_markdown_url := u.translated_markdown_url.getD t.translated_markdown_url
    mineru_task_id := match u.mineru_task_id with
                      | some v => some v
                      | none => t.mineru_task_id }

/-- Row transformation of `_update_task`: apply the kwargs, then, when the
resulting status is `completed`, force `progress = 100` and set
`completed_at = completed_at or utcnow()`. -/
def update_task_row (now : Nat) (u : TaskUpdates) (t : Task) : Task :=
  let t1 := applyUpdates t u
  if t1.status = "completed" then
    { t1 with
      progress := 100
      completed_at := match t1.completed_at with
                      | some v => some v
                      | none => some now }
  else t1

/-- `SELECT ... WHERE TranslationTask.id == task_id` (ids are unique). -/
def findTask (ts : List Task) (tid : String) : Option Task :=
  ts.find? (fun t => t.id == tid)

/-- Commit an update of the row(s) with the given id. -/
def replaceTask (ts : List Task) (tid : String) (g : Task → Task) : List Task :=
  ts.map (fun t => if t.id = tid then g t else t)

/-- `TaskManager._update_task`: durable write, then invalidate the task-detail
and owner-list caches, write the status cache, and notify the owner. -/
def update_task (s : SysState) (tid : String) (now : Nat) (u : TaskUpdates) :
    Option Task × SysState × List Effect :=
  match findTask s.tasks tid with
  | none => (none, s, [])
  | some t =>
    let t1 := update_task_row now u t
    (some t1,
     { s with tasks := replaceTask s.tasks tid (update_task_row now u) },
     [.dbWrite t1.status, .cacheInvalidate, .cacheInvalidate, .statusCacheWrite, .notify])

/-- `TaskManager._cancel_job`: pop the in-flight handle and cancel it. -/
def cancel_job (s : SysState) (tid : String) : SysState × List Effect :=
  if tid ∈ s.jobs then
    ({ s with jobs := s.jobs.filter (fun j => j ≠ tid) }, [.cancelJob tid])
  else (s, [])

/-- `TaskManager._schedule`: cancel any prior handle; if the in-flight count
is at the cap, do nothing (the id stays queued); otherwise spawn a job. -/
def schedule (s : SysState) (tid : String) : SysState × List Effect :=
  let r := cancel_job s tid
  if r.1.max_concurrent_tasks ≤ r.1.jobs.length then r
  else ({ r.1 with jobs := r.1.jobs ++ [tid] }, r.2 ++ [.spawnJob tid])

/-- The field resets of `TaskManager.retry_task` (note: the source does not
touch `zip_output_s3_key` / `zip_output_url`). -/
def retry_reset (t : Task) : Task :=
  { t with
    status := "queued", progress := 0, error := none
    progress_message := some "等待重新处理"
    output_url := none, output_s3_key := none
    mono_output_s3_key := none, mono_output_url := none
    dual_output_s3_key := none, dual_output_url := none
    glossary_output_s3_key := none, glossary_output_url := none
    markdown_output_s3_key := none, markdown_output_url := none
    translated_markdown_s3_key := none, translated_markdown_url := none
    mineru_task_id := none, completed_at := none }

/-- `TaskManager.retry_task`: reset the row, commit, re-enqueue at the task's
priority, then `_schedule`.  Returns `none` when the id does not exist. -/
def retry_task (s : SysState) (tid : String) : Option Task × SysState × List Effect :=
  match findTask s.tasks tid with
  | none => (none, s, [])
  | some t =>
    let t1 := retry_reset t
    let s1 := { s with tasks := replaceTask s.tasks tid retry_reset }
    let s2 := { s1 with redis := enqueue_task s1.redis tid t1.priority }
    let r := schedule s2 tid
    (some t1, r.1, [.dbWrite "queued", .enqueue tid t1.priority] ++ r.2)

/-- Row transformation of `TaskManager.cancel_task`. -/
def cancel_reset (t : Task) : Task :=
  { t with status := "canceled", progress := 0, progress_message := some "任务已取消" }

/-- `TaskManager.cancel_task`: cancel the in-flight handle, then mark the row
canceled.  It neither touches the queues nor invalidates caches nor
notifies. -/
def cancel_task (s : SysState) (tid : String) : Option Task × SysState × List Effect :=
  let r := cancel_job s tid
  match findTask r.1.tasks tid with
  | none => (none, r.1, r.2)
  | some t =>
    (some (cancel_reset t),
     { r.1 with tasks := replaceTask r.1.tasks tid cancel_reset },
     r.2 ++ [.dbWrite "canceled"])

/-- The arguments of `TaskManager.create_task` that the verified behaviour
depends on.  `task_id` models the generated `token_urlsafe(6)`;
`file_data` is the optional raw upload (`None` or a byte list). -/
structure CreateArgs where
  task_id : String
  owner_id : String
  owner_email : String
  document_name : String
  priority : String := "normal"
  file_data : Option (List Nat) := none
  deriving DecidableEq, Repr

/-- Distinguishable failure of `create_task`. -/
inductive CreateError where
  | missingS3Configuration
  deriving DecidableEq, Repr

/-- Python truthiness of `if file_data:` — `None` and `b""` are falsy. -/
def has_file_data : Option (List Nat) → Bool
  | some (_ :: _) => true
  | _ => false

/-- The freshly inserted row of `create_task` (`status='queued', progress=0`;
output fields are NULL). -/
def new_task_row (a : CreateArgs) (input_key : Option String) : Task :=
  { id := a.task_id, owner_id := a.owner_id, priority := a.priority
    status := "queued", progress := 0, progress_message := none, error := none
    completed_at := none, input_s3_key := input_key
    output_s3_key := none, output_url := none
    mono_output_s3_key := none, mono_output_url := none
    dual_output_s3_key := none, dual_output_url := none
    glossary_output_s3_key := none, glossary_output_url := none
    zip_output_s3_key := none, zip_output_url := none
    markdown_output_s3_key := none, markdown_output_url := none
    translated_markdown_s3_key := none, translated_markdown_url := none
    mineru_task_id := none }

/-- `TaskManager.create_task`: when file bytes are truthy, require the strict
S3 config (raising `MissingS3Configuration` before anything is persisted) and
upload the input; then insert the row, commit, notify the owner, enqueue by
priority, and attempt `_schedule`. -/
def create_task (s : SysState) (a : CreateArgs) :
    Except CreateError (Task × SysState × List Effect) :=
  if has_file_data a.file_data && !(s3_strict_ok s.s3) then
    .error .missingS3Configuration
  else
    let upload := has_file_data a.file_data
    let input_key :=
      if upload then some ("uploads/" ++ a.owner_id ++ "/" ++ a.task_id ++ "/input.pdf")
      else none
    let t := new_task_row a input_key
    let s1 := { s with tasks := s.tasks ++ [t] }
    let s2 := { s1 with redis := enqueue_task s1.redis a.task_id a.priority }
    let r := schedule s2 a.task_id
    .ok (t, r.1,
      (if upload then [Effect.blobPut] else []) ++
        [.dbInsert, .notify, .enqueue a.task_id a.priority] ++ r.2)

/-- `TaskManager.delete_task`: cancel the in-flight handle and purge the id
from all three queues, both before the ownership-checked row lookup; a row
matching id and owner is deleted, its blob artifacts best-effort removed, and
the caches invalidated; otherwise return `"not_found"`. -/
def delete_task (s : SysState) (tid owner : String) :
    String × SysState × List Effect :=
  let r := cancel_job s tid
  let s2 := { r.1 with redis := remove_task_from_all_queues r.1.redis tid }
  let e2 := r.2 ++ [Effect.queueRemove tid]
  match s2.tasks.find? (fun t => t.id == tid && t.owner_id == owner) with
  | none => ("not_found", s2, e2)
  | some t =>
    let keys := ([t.input_s3_key, t.output_s3_key, t.mono_output_s3_key,
        t.dual_output_s3_key, t.glossary_output_s3_key, t.zip_output_s3_key,
        t.markdown_output_s3_key, t.translated_markdown_s3_key].filterMap id).dedup
    let blobEffects :=
      if s3_delete_ready s.s3 then
        keys.map Effect.blobDelete ++ [Effect.blobDeleteFolder] ++
          (match t.mineru_task_id with
           | some _ => [Effect.blobDeleteFolder]
           | none => [])
      else []
    let s3t := { s2 with
      tasks := s2.tasks.filter (fun x => !(x.id == tid && x.owner_id == owner)) }
    ("deleted", s3t,
     e2 ++ [.dbDelete] ++ blobEffects ++
       [.cacheInvalidate, .cacheInvalidate, .statusCacheDelete])

/-- Row transformation of `resume_stalled_tasks` for one orphaned row. -/
def resume_reset (t : Task) : Task :=
  { t with status := "queued", progress := 0
           progress_message := some "系统重启自动恢复，已重新排队" }

/-- One iteration of the recovery loop: re-select the row by id (skip when it
vanished), reset it to `queued`, commit, invalidate caches, write the status
cache, notify, and re-enqueue at the snapshot's priority. -/
def resume_one (s : SysState) (tid priority : String) : SysState × List Effect :=
  match findTask s.tasks tid with
  | none => (s, [])
  | some _ =>
    let s1 := { s with tasks := replaceTask s.tasks tid resume_reset }
    let s2 := { s1 with redis := enqueue_task s1.redis tid priority }
    (s2, [.dbWrite "queued", .cacheInvalidate, .cacheInvalidate,
          .statusCacheWrite, .notify, .enqueue tid priority])

/-- One fold step of `resume_stalled_tasks` over the stalled snapshot,
accumulating the recovered state and the effect trace. -/
def resume_step (acc : SysState × List Effect) (t : Task) : SysState × List Effect :=
  let r := resume_one acc.1 t.id t.priority
  (r.1, acc.2 ++ r.2)

/-- `TaskManager.resume_stalled_tasks`: snapshot every row whose status is
`processing`, then recover each in turn. -/
def resume_stalled_tasks (s : SysState) : SysState × List Effect :=
  let stalled := s.tasks.filter (fun t => t.status == "processing")
  stalled.foldl resume_step (s, [])

/-- One mutating facade operation of the lifecycle manager. -/
inductive Op where
  | update (tid : String) (now : Nat) (u : TaskUpdates)
  | retry (tid : String)
  | cancel (tid : String)
  | delete (tid owner : String)
  | create (a : CreateArgs)
  | resume
  deriving DecidableEq, Repr

/-- State-and-effects semantics of one operation (a failed `create` leaves
the state unchanged and performs no effect, as the exception propagates
before any persistence). -/
def applyOp : Op → SysState → SysState × List Effect
  | .update tid now u, s => (update_task s tid now u).2
  | .retry tid, s => (retry_task s tid).2
  | .cancel tid, s => (cancel_task s tid).2
  | .delete tid owner, s => (delete_task s tid owner).2
  | .create a, s =>
    match create_task s a with
    | .error _ => (s, [])
    | .ok r => r.2
  | .resume, s => resume_stalled_tasks s

/-- The methods defined on `class TaskManager` in `app/tasks.py`, in source
order.  The performance-settings route expects a `reload_config` method. -/
def taskManagerMethods : List String :=
  ["__init__", "_check_concurrent_limit", "_get_next_priority", "create_task",
   "start_queue_monitor", "_queue_monitor_loop", "_process_pending_tasks",
   "resume_stalled_tasks", "get_concurrent_status", "list_tasks", "get_task",
   "retry_task", "cancel_task", "delete_task", "_update_task", "_schedule",
   "_lifecycle_with_semaphore", "_resolve_mineru_credentials",
   "_extract_mineru_settings", "_cancel_job", "_lifecycle",
   "_lifecycle_translation", "_lifecycle_parsing",
   "_lifecycle_parse_and_translate"]

/-- Body of `PUT /admin/settings/performance`. -/
structure PerformanceSettingsRequest where
  maxConcurrentTasks : Option Nat := none
  translationThreads : Option Nat := none
  queueMonitorInterval : Option Nat := none
  deriving DecidableEq, Repr

/-- Upsert one row of the `system_settings` table. -/
def set_setting : List (String × String) → String → String → List (String × String)
  | [], key, v => [(key, v)]
  | (k, v0) :: rest, key, v =>
      if k = key then (key, v) :: rest else (k, v0) :: set_setting rest key v

/-- `update_performance_settings` (`app/routes/settings.py`): persist the
provided settings and commit, then call `task_manager.reload_config()`.  The
call can only succeed when `TaskManager` defines `reload_config`; otherwise
Python raises `AttributeError` after the commit, and the in-memory
`max_concurrent_tasks` of the scheduler is left untouched. -/
def update_performance_settings (s : SysState) (r : PerformanceSettingsRequest) :
    Except String Unit × SysState :=
  let pairs :=
    (match r.maxConcurrentTasks with
     | some v => [("max_concurrent_tasks", toString v)]
     | none => []) ++
    (match r.translationThreads with
     | some v => [("translation_threads", toString v)]
     | none => []) ++
    (match r.queueMonitorInterval with
     | some v => [("queue_monitor_interval", toString v)]
     | none => [])
  let s1 := { s with settings := pairs.foldl (fun acc kv => set_setting acc kv.1 kv.2) s.settings }
  if "reload_config" ∈ taskManagerMethods then (.ok (), s1)
  else
    (.error "AttributeError: TaskManager object has no attribute reload_config", s1)

/-- Outcome of the `translate_pdf` provider call: success flag, error text
and the produced local result files (present iff the file exists on disk). -/
structure TranslateResult where
  success : Bool
  error : Option String
  mono : Option String
  dual : Option String
  glossary : Option String
  deriving DecidableEq, Repr

/-- `upload_variant` of `_lifecycle_translation`: a missing local file yields
`(None, None)` and no upload; otherwise the variant is uploaded under
`outputs/{owner}/{task}/{kind}_{name}` and a presigned URL is produced. -/
def upload_variant (owner tid kind : String) :
    Option String → (Option String × Option String) × List Effect
  | none => ((none, none), [])
  | some name =>
      let key := "outputs/" ++ owner ++ "/" ++ tid ++ "/" ++ kind ++ "_" ++ name
      ((some key, some ("presigned:" ++ key)), [Effect.blobPut])

/-- The tail of `TaskManager._lifecycle_translation` after the provider call:
on provider failure mark the row failed; otherwise report progress 80, upload
the variants, fail with `"翻译完成但未找到输出文件"` when neither a mono nor a
dual variant was produced, and only otherwise mark the row completed with the
dual (or else mono) variant as primary output. -/
def lifecycle_translation_finish (s : SysState) (tid : String) (now : Nat)
    (owner : String) (r : TranslateResult) : SysState × List Effect :=
  if r.success then
    let w1 := update_task s tid now
      { progress := some 80, progress_message := some (some "翻译完成，准备上传结果…") }
    let mono := upload_variant owner tid "mono" r.mono
    let dual := upload_variant owner tid "dual" r.dual
    let glossary := upload_variant owner tid "glossary" r.glossary
    let upEffects := mono.2 ++ dual.2 ++ glossary.2
    if mono.1.1.isNone && dual.1.1.isNone then
      let w2 := update_task w1.2.1 tid now
        { status := some "failed", error := some (some "翻译完成但未找到输出文件")
          progress := some 0, progress_message := some (some "翻译完成但未找到输出文件") }
      (w2.2.1, w1.2.2 ++ upEffects ++ w2.2.2)
    else
      let w2 := update_task w1.2.1 tid now
        { progress := some 85, progress_message := some (some "结果上传完成") }
      let primary_key := match dual.1.1 with
                         | some k => some k
                         | none => mono.1.1
      let primary_url := match dual.1.2 with
                         | some v => some v
                         | none => mono.1.2
      let w3 := update_task w2.2.1 tid now
        { status := some "completed"
          output_s3_key := some primary_key, output_url := some primary_url
          mono_output_s3_key := some mono.1.1, mono_output_url := some mono.1.2
          dual_output_s3_key := some dual.1.1, dual_output_url := some dual.1.2
          glossary_output_s3_key := some glossary.1.1
          glossary_output_url := some glossary.1.2
          error := some none, progress_message := some (some "翻译完成") }
      (w3.2.1, w1.2.2 ++ upEffects ++ w2.2.2 ++ w3.2.2)
  else
    let w := update_task s tid now
      { status := some "failed", error := some r.error
        progress := some 0, progress_message := some r.error }
    (w.2.1, w.2.2)

/-! ### Basic lemmas about rows, lookup and replacement -/

theorem applyUpdates_id (t : Task) (u : TaskUpdates) : (applyUpdates t u).id = t.id := rfl

theorem applyUpdates_completed_at (t : Task) (u : TaskUpdates) :
    (applyUpdates t u).completed_at = t.completed_at := rfl

theorem update_task_row_id (now : Nat) (u : TaskUpdates) (t : Task) :
    (update_task_row now u t).id = t.id := by
  by_cases h : (applyUpdates t u).status = "completed" <;>
    simp [update_task_row, h, applyUpdates_id]

theorem update_task_row_completed_progress (now : Nat) (u : TaskUpdates) (t : Task)
    (h : (update_task_row now u t).status = "completed") :
    (update_task_row now u t).progress = 100 := by
  by_cases h1 : (applyUpdates t u).status = "completed"
  · simp [update_task_row, h1]
  · simp [update_task_row, h1] at h

theorem update_task_row_keeps_completed_at (now : Nat) (u : TaskUpdates) (t : Task)
    (v : Nat) (h : t.completed_at = some v) :
    (update_task_row now u t).completed_at = some v := by
  have hca : (applyUpdates t u).completed_at = some v := by
    rw [applyUpdates_completed_at, h]
  by_cases h1 : (applyUpdates t u).status = "completed" <;>
    simp [update_task_row, h1, hca]

theorem findTask_replaceTask (ts : List Task) (tid : String) (g : Task → Task)
    (hg : ∀ t, (g t).id = t.id) :
    findTask (replaceTask ts tid g) tid = (findTask ts tid).map g := by
  induction ts with
  | nil => rfl
  | cons t rest ih =>
    by_cases h : t.id = tid
    · simp [findTask, replaceTask, List.find?, h, hg t]
    · simp only [findTask, replaceTask, List.map] at *
      rw [if_neg h]
      simp only [List.find?]
      have hb : (t.id == tid) = false := by simpa using h
      rw [hb]
      exact ih

theorem mem_replaceTask {t' : Task} {ts : List Task} {tid : String} {g : Task → Task}
    (h : t' ∈ replaceTask ts tid g) :
    ∃ t ∈ ts, t' = if t.id = tid then g t else t := by
  unfold replaceTask at h
  obtain ⟨t, ht, rfl⟩ := List.mem_map.mp h
  exact ⟨t, ht, rfl⟩

theorem findTask_none_not_mem {ts : List Task} {tid : String}
    (h : findTask ts tid = none) : ∀ t ∈ ts, t.id ≠ tid := by
  intro t ht
  have := List.find?_eq_none.mp h t ht
  simpa using this

theorem replaceTask_of_no_match {ts : List Task} {tid : String} (g : Task → Task)
    (h : ∀ t ∈ ts, t.id ≠ tid) : replaceTask ts tid g = ts := by
  unfold replaceTask
  induction ts with
  | nil => rfl
  | cons t rest ih =>
    have hne := h t (List.mem_cons_self t rest)
    simp only [List.map, if_neg hne]
    rw [ih (fun x hx => h x (List.mem_cons_of_mem t hx))]

theorem exists_id_replaceTask {ts : List Task} {i tid : String} {g : Task → Task}
    (hg : ∀ t, (g t).id = t.id)
    (h : ∃ t ∈ ts, t.id = i) : ∃ t ∈ replaceTask ts tid g, t.id = i := by
  obtain ⟨t, ht, hi⟩ := h
  unfold replaceTask
  refine ⟨if t.id = tid then g t else t, List.mem_map_of_mem _ ht, ?_⟩
  split
  · rw [hg t]; exact hi
  · exact hi

theorem findTask_isSome_iff (ts : List Task) (tid : String) :
    (findTask ts tid).isSome ↔ ∃ t ∈ ts, t.id = tid := by
  unfold findTask
  rw [List.find?_isSome]
  constructor
  · rintro ⟨t, ht, hp⟩; exact ⟨t, ht, by simpa using hp⟩
  · rintro ⟨t, ht, hp⟩; exact ⟨t, ht, by simpa using hp⟩

/-! ### Shape lemmas for the job-handle helpers -/

theorem cancel_job_tasks (s : SysState) (tid : String) :
    (cancel_job s tid).1.tasks = s.tasks := by
  unfold cancel_job; split <;> rfl

theorem cancel_job_redis (s : SysState) (tid : String) :
    (cancel_job s tid).1.redis = s.redis := by
  unfold cancel_job; split <;> rfl

theorem cancel_job_cap (s : SysState) (tid : String) :
    (cancel_job s tid).1.max_concurrent_tasks = s.max_concurrent_tasks := by
  unfold cancel_job; split <;> rfl

theorem cancel_job_not_mem (s : SysState) (tid : String) :
    tid ∉ (cancel_job s tid).1.jobs := by
  unfold cancel_job
  by_cases h : tid ∈ s.jobs
  · simp [h, List.mem_filter]
  · simp [h]

theorem schedule_tasks (s : SysState) (tid : String) :
    (schedule s tid).1.tasks = s.tasks := by
  simp only [schedule]
  split
  · exact cancel_job_tasks s tid
  · exact cancel_job_tasks s tid

theorem schedule_redis (s : SysState) (tid : String) :
    (schedule s tid).1.redis = s.redis := by
  simp only [schedule]
  split
  · exact cancel_job_redis s tid
  · exact cancel_job_redis s tid

theorem schedule_cap (s : SysState) (tid : String) :
    (schedule s tid).1.max_concurrent_tasks = s.max_concurrent_tasks := by
  simp only [schedule]
  split
  · exact cancel_job_cap s tid
  · exact cancel_job_cap s tid

/-! ### The write-store / invalidate-cache / notify ordering machinery -/

/-- Durable (relational-store) writes. -/
def isDurableWrite : Effect → Bool
  | .dbWrite _ => true
  | .dbInsert => true
  | .dbDelete => true
  | _ => false

/-- Cache invalidations and owner notifications. -/
def isCacheOrNotify : Effect → Bool
  | .cacheInvalidate => true
  | .notify => true
  | _ => false

/-- Scan an effect trace: once a durable write has been seen everything is
allowed; before the first durable write no cache invalidation or
notification may appear. -/
def writeFirstAux : List Effect → Bool → Bool
  | [], _ => true
  | _ :: rest, true => writeFirstAux rest true
  | e :: rest, false =>
      if isCacheOrNotify e then false else writeFirstAux rest (isDurableWrite e)

/-- The trace never invalidates a cache or notifies before its first durable
write. -/
def writeFirst (es : List Effect) : Bool := writeFirstAux es false

theorem writeFirstAux_true (l : List Effect) : writeFirstAux l true = true := by
  induction l with
  | nil => rfl
  | cons e rest ih => simpa [writeFirstAux] using ih

theorem writeFirstAux_append (l1 l2 : List Effect)
    (h1 : writeFirstAux l1 false = true) (h2 : writeFirstAux l2 false = true) :
    writeFirstAux (l1 ++ l2) false = true := by
  induction l1 with
  | nil => simpa using h2
  | cons e rest ih =>
    by_cases hc : isCacheOrNotify e = true
    · simp [writeFirstAux, hc] at h1
    · simp only [writeFirstAux, hc, if_neg, List.cons_append, Bool.if_false_right] at h1 ⊢
      rw [if_neg (by simp [hc])] at h1 ⊢
      cases hd : isDurableWrite e
      · rw [hd] at h1
        exact ih h1
      · exact writeFirstAux_true _

theorem writeFirst_cons_write (st : String) (l : List Effect) :
    writeFirst (Effect.dbWrite st :: l) = true := by
  simp [writeFirst, writeFirstAux, isCacheOrNotify, isDurableWrite, writeFirstAux_true]

/-! ### Queue lemmas -/

theorem mem_lget_enqueue_self (r : RedisLists) (tid p : String) :
    tid ∈ lget (enqueue_task r tid p) ("tasks:" ++ p) := by
  simp [enqueue_task, lget_lset_self]

theorem mem_lget_enqueue_mono (r : RedisLists) (y p k x : String)
    (h : x ∈ lget r k) : x ∈ lget (enqueue_task r y p) k := by
  unfold enqueue_task
  by_cases hk : ("tasks:" ++ p) = k
  · subst hk
    rw [lget_lset_self]
    exact List.mem_cons_of_mem _ h
  · rw [lget_lset_other _ _ _ _ hk]
    exact h

theorem not_mem_filter_ne (l : List String) (tid : String) :
    tid ∉ l.filter (fun x => x ≠ tid) := by
  simp [List.mem_filter]

theorem remove_all_queues_spec (r : RedisLists) (tid : String) :
    tid ∉ lget (remove_task_from_all_queues r tid) "tasks:high" ∧
    tid ∉ lget (remove_task_from_all_queues r tid) "tasks:normal" ∧
    tid ∉ lget (remove_task_from_all_queues r tid) "tasks:low" := by
  have ehi : ("tasks:" ++ "high") = "tasks:high" := rfl
  have eno : ("tasks:" ++ "normal") = "tasks:normal" := rfl
  have elo : ("tasks:" ++ "low") = "tasks:low" := rfl
  unfold remove_task_from_all_queues
  simp only [List.foldl, ehi, eno, elo]
  refine ⟨?_, ?_, ?_⟩
  · rw [lget_lset_other _ _ _ _ (by decide), lget_lset_other _ _ _ _ (by decide),
      lget_lset_self]
    exact not_mem_filter_ne _ _
  · rw [lget_lset_other _ _ _ _ (by decide), lget_lset_self]
    exact not_mem_filter_ne _ _
  · rw [lget_lset_self]
    exact not_mem_filter_ne _ _

/-! ### Crash-recovery lemmas -/

theorem resume_one_tasks (s : SysState) (tid p : String) :
    (resume_one s tid p).1.tasks = replaceTask s.tasks tid resume_reset := by
  cases hf : findTask s.tasks tid with
  | none =>
    simp [resume_one, hf, replaceTask_of_no_match _ (findTask_none_not_mem hf)]
  | some t => simp [resume_one, hf]

theorem resume_one_cap (s : SysState) (tid p : String) :
    (resume_one s tid p).1.max_concurrent_tasks = s.max_concurrent_tasks := by
  cases hf : findTask s.tasks tid with
  | none => simp [resume_one, hf]
  | some t => simp [resume_one, hf]

theorem resume_one_redis_mono (s : SysState) (tid p x k : String)
    (h : x ∈ lget s.redis k) : x ∈ lget (resume_one s tid p).1.redis k := by
  cases hf : findTask s.tasks tid with
  | none => simpa [resume_one, hf] using h
  | some t =>
    simp only [resume_one, hf]
    exact mem_lget_enqueue_mono _ _ _ _ _ h

theorem resume_one_wfa (s : SysState) (tid p : String) :
    writeFirstAux (resume_one s tid p).2 false = true := by
  cases hf : findTask s.tasks tid with
  | none => simp [resume_one, hf, writeFirstAux]
  | some t =>
    simp [resume_one, hf, writeFirstAux, isCacheOrNotify, isDurableWrite,
      writeFirstAux_true]

/-- All rows with the given id already carry the recovery values. -/
def recovered (i : String) (ts : List Task) : Prop :=
  ∀ t ∈ ts, t.id = i →
    t.status = "queued" ∧ t.progress = 0 ∧
      t.progress_message = some "系统重启自动恢复，已重新排队"

theorem resume_one_recovered_stable (s : SysState) (tid p i : String)
    (h : recovered i s.tasks) : recovered i (resume_one s tid p).1.tasks := by
  rw [recovered, resume_one_tasks]
  intro t' ht' hid
  obtain ⟨t0, ht0, ht'eq⟩ := mem_replaceTask ht'
  by_cases h0 : t0.id = tid
  · rw [if_pos h0] at ht'eq
    subst ht'eq
    exact ⟨rfl, rfl, rfl⟩
  · rw [if_neg h0] at ht'eq
    subst ht'eq
    exact h _ ht0 hid

theorem resume_one_recovered_self (s : SysState) (tid p : String) :
    recovered tid (resume_one s tid p).1.tasks := by
  rw [recovered, resume_one_tasks]
  intro t' ht' hid
  obtain ⟨t0, ht0, ht'eq⟩ := mem_replaceTask ht'
  by_cases h0 : t0.id = tid
  · rw [if_pos h0] at ht'eq
    subst ht'eq
    exact ⟨rfl, rfl, rfl⟩
  · rw [if_neg h0] at ht'eq
    subst ht'eq
    exact absurd hid h0

theorem resume_one_exists_id (s : SysState) (tid p i : String)
    (h : ∃ t ∈ s.tasks, t.id = i) :
    ∃ t ∈ (resume_one s tid p).1.tasks, t.id = i := by
  rw [resume_one_tasks]
  exact exists_id_replaceTask (fun t => rfl) h

theorem resume_one_enqueues (s : SysState) (tid p : String)
    (h : ∃ t ∈ s.tasks, t.id = tid) :
    tid ∈ lget (resume_one s tid p).1.redis ("tasks:" ++ p) := by
  have hs : (findTask s.tasks tid).isSome := (findTask_isSome_iff _ _).mpr h
  cases hf : findTask s.tasks tid with
  | none => rw [hf] at hs; simp at hs
  | some t =>
    simp only [resume_one, hf]
    exact mem_lget_enqueue_self _ _ _

theorem resume_fold_cap (l : List Task) (acc : SysState × List Effect) :
    ((l.foldl resume_step acc).1).max_concurrent_tasks = acc.1.max_concurrent_tasks := by
  induction l generalizing acc with
  | nil => rfl
  | cons t l2 ih =>
    rw [List.foldl_cons, ih]
    exact resume_one_cap _ _ _

theorem resume_fold_recovered (l : List Task) (acc : SysState × List Effect)
    (i : String) (h : recovered i acc.1.tasks) :
    recovered i ((l.foldl resume_step acc).1).tasks := by
  induction l generalizing acc with
  | nil => exact h
  | cons t l2 ih =>
    rw [List.foldl_cons]
    exact ih _ (resume_one_recovered_stable _ _ _ _ h)

theorem resume_fold_redis_mono (l : List Task) (acc : SysState × List Effect)
    (x k : String) (h : x ∈ lget acc.1.redis k) :
    x ∈ lget ((l.foldl resume_step acc).1).redis k := by
  induction l generalizing acc with
  | nil => exact h
  | cons t l2 ih =>
    rw [List.foldl_cons]
    exact ih _ (resume_one_redis_mono _ _ _ _ _ h)

theorem resume_fold_exists_id (l : List Task) (acc : SysState × List Effect)
    (i : String) (h : ∃ t ∈ acc.1.tasks, t.id = i) :
    ∃ t ∈ ((l.foldl resume_step acc).1).tasks, t.id = i := by
  induction l generalizing acc with
  | nil => exact h
  | cons t l2 ih =>
    rw [List.foldl_cons]
    exact ih _ (resume_one_exists_id _ _ _ _ h)

theorem resume_fold_wfa (l : List Task) (acc : SysState × List Effect)
    (h : writeFirstAux acc.2 false = true) :
    writeFirstAux ((l.foldl resume_step acc).2) false = true := by
  induction l generalizing acc with
  | nil => exact h
  | cons t l2 ih =>
    rw [List.foldl_cons]
    exact ih _ (writeFirstAux_append _ _ h (resume_one_wfa _ _ _))

theorem resume_fold_no_processing (l : List Task) (acc : SysState × List Effect)
    (h : ∀ t' ∈ acc.1.tasks, t'.status = "processing" → ∃ t ∈ l, t'.id = t.id) :
    ∀ t' ∈ ((l.foldl resume_step acc).1).tasks, t'.status ≠ "processing" := by
  induction l generalizing acc with
  | nil =>
    intro t' ht' hp
    obtain ⟨t, ht, _⟩ := h t' ht' hp
    exact absurd ht (List.not_mem_nil t)
  | cons t l2 ih =>
    rw [List.foldl_cons]
    refine ih _ ?_
    intro t' ht' hp
    rw [show (resume_step acc t).1.tasks = replaceTask acc.1.tasks t.id resume_reset from
      resume_one_tasks _ _ _] at ht'
    obtain ⟨t0, ht0, ht'eq⟩ := mem_replaceTask ht'
    by_cases h0 : t0.id = t.id
    · rw [if_pos h0] at ht'eq
      subst ht'eq
      simp [resume_reset] at hp
    · rw [if_neg h0] at ht'eq
      subst ht'eq
      obtain ⟨t1, ht1, hid⟩ := h _ ht0 hp
      rcases List.mem_cons.mp ht1 with h1 | h1
      · subst h1; exact absurd hid h0
      · exact ⟨t1, h1, hid⟩

theorem resume_stalled_no_processing (s : SysState) :
    ∀ t' ∈ (resume_stalled_tasks s).1.tasks, t'.status ≠ "processing" := by
  unfold resume_stalled_tasks
  refine resume_fold_no_processing _ _ ?_
  intro t' ht' hp
  exact ⟨t', List.mem_filter.mpr ⟨ht', by simp [hp]⟩, rfl⟩

theorem resume_stalled_second_run (s : SysState) :
    resume_stalled_tasks (resume_stalled_tasks s).1 = ((resume_stalled_tasks s).1, []) := by
  set A := (resume_stalled_tasks s).1 with hA
  have hf : A.tasks.filter (fun t => t.status == "processing") = [] := by
    rw [List.filter_eq_nil_iff]
    intro t ht
    simp [resume_stalled_no_processing s t ht]
  show resume_stalled_tasks A = (A, [])
  unfold resume_stalled_tasks
  rw [hf]
  rfl

/-! ### Effect-order lemmas per operation -/

theorem wfa_append_write_head (l1 : List Effect) (e : Effect) (l2 : List Effect)
    (h1 : writeFirstAux l1 false = true) (hd : isDurableWrite e = true)
    (hc : isCacheOrNotify e = false) :
    writeFirstAux (l1 ++ e :: l2) false = true :=
  writeFirstAux_append l1 (e :: l2) h1
    (by simp [writeFirstAux, hc, hd, writeFirstAux_true])

/-- Every operation's effect trace performs no cache invalidation and no
notification before its first durable write. -/
theorem applyOp_writeFirst (o : Op) (s : SysState) :
    writeFirst (applyOp o s).2 = true := by
  cases o with
  | update tid now u =>
    cases hf : findTask s.tasks tid with
    | none => simp [applyOp, update_task, hf, writeFirst, writeFirstAux]
    | some t =>
      simp [applyOp, update_task, hf, writeFirst, writeFirstAux,
        isCacheOrNotify, isDurableWrite]
  | retry tid =>
    cases hf : findTask s.tasks tid with
    | none => simp [applyOp, retry_task, hf, writeFirst, writeFirstAux]
    | some t =>
      simp [applyOp, retry_task, hf, writeFirst, writeFirstAux,
        isCacheOrNotify, isDurableWrite, writeFirstAux_true]
  | cancel tid =>
    by_cases hj : tid ∈ s.jobs
    all_goals cases hf : findTask s.tasks tid
    all_goals
      simp [applyOp, cancel_task, cancel_job, hj, hf, writeFirst, writeFirstAux,
        isCacheOrNotify, isDurableWrite]
  | delete tid owner =>
    have hpre : ∀ l2 : List Effect,
        writeFirstAux ((cancel_job s tid).2 ++ Effect.queueRemove tid :: l2) false =
          writeFirstAux l2 false := by
      intro l2
      by_cases hj : tid ∈ s.jobs <;>
        simp [cancel_job, hj, writeFirstAux, isCacheOrNotify, isDurableWrite]
    simp only [applyOp, delete_task]
    cases hfind : ((cancel_job s tid).1.tasks).find?
        (fun t => t.id == tid && t.owner_id == owner) with
    | none =>
      simp only [hfind, writeFirst]
      rw [hpre []]
      rfl
    | some t =>
      simp only [hfind, writeFirst]
      rw [List.append_assoc, List.append_assoc, List.append_assoc,
        List.singleton_append]
      rw [hpre]
      simp [writeFirstAux, isCacheOrNotify, isDurableWrite, writeFirstAux_true]
  | create a =>
    by_cases hcond : (has_file_data a.file_data && !(s3_strict_ok s.s3)) = true
    · simp [applyOp, create_task, hcond, writeFirst, writeFirstAux]
    · by_cases hup : has_file_data a.file_data = true
      · have hok : s3_strict_ok s.s3 = true := by
          rcases Bool.eq_false_or_eq_true (s3_strict_ok s.s3) with hb | hb
          · exact hb
          · exact absurd (by simp [hup, hb]) hcond
        simp [applyOp, create_task, hup, hok, writeFirst, writeFirstAux,
          isCacheOrNotify, isDurableWrite, writeFirstAux_true]
      · simp [applyOp, create_task, hup, writeFirst, writeFirstAux,
          isCacheOrNotify, isDurableWrite, writeFirstAux_true]
  | resume =>
    unfold applyOp resume_stalled_tasks writeFirst
    exact resume_fold_wfa _ _ rfl

/-! ### The completed-implies-progress-100 invariant -/

/-- Every row whose status is `completed` has progress 100. -/
def completedInv (s : SysState) : Prop :=
  ∀ t ∈ s.tasks, t.status = "completed" → t.progress = 100

instance (s : SysState) : Decidable (completedInv s) := by
  unfold completedInv
  infer_instance

theorem completedInv_replaceTask {ts : List Task} {tid : String} {g : Task → Task}
    (hts : ∀ t ∈ ts, t.status = "completed" → t.progress = 100)
    (hg : ∀ t, (g t).status = "completed" → (g t).progress = 100) :
    ∀ t' ∈ replaceTask ts tid g, t'.status = "completed" → t'.progress = 100 := by
  intro t' ht' hst
  obtain ⟨t0, ht0, ht'eq⟩ := mem_replaceTask ht'
  by_cases h0 : t0.id = tid
  · rw [if_pos h0] at ht'eq
    subst ht'eq
    exact hg t0 hst
  · rw [if_neg h0] at ht'eq
    subst ht'eq
    exact hts _ ht0 hst

theorem retry_task_tasks (s : SysState) (tid : String) :
    (retry_task s tid).2.1.tasks = replaceTask s.tasks tid retry_reset := by
  cases hf : findTask s.tasks tid with
  | none =>
    simp [retry_task, hf, replaceTask_of_no_match _ (findTask_none_not_mem hf)]
  | some t => simp [retry_task, hf, schedule_tasks]

theorem cancel_task_tasks (s : SysState) (tid : String) :
    (cancel_task s tid).2.1.tasks = replaceTask s.tasks tid cancel_reset := by
  cases hf : findTask s.tasks tid with
  | none =>
    simp [cancel_task, cancel_job_tasks, hf,
      replaceTask_of_no_match _ (findTask_none_not_mem hf)]
  | some t => simp [cancel_task, cancel_job_tasks, hf]

theorem update_task_tasks (s : SysState) (tid : String) (now : Nat) (u : TaskUpdates) :
    (update_task s tid now u).2.1.tasks = replaceTask s.tasks tid (update_task_row now u) := by
  cases hf : findTask s.tasks tid with
  | none =>
    simp [update_task, hf, replaceTask_of_no_match _ (findTask_none_not_mem hf)]
  | some t => simp [update_task, hf]

theorem resume_fold_completedInv (l : List Task) (acc : SysState × List Effect)
    (h : ∀ t ∈ acc.1.tasks, t.status = "completed" → t.progress = 100) :
    ∀ t ∈ ((l.foldl resume_step acc).1).tasks, t.status = "completed" → t.progress = 100 := by
  induction l generalizing acc with
  | nil => exact h
  | cons t l2 ih =>
    rw [List.foldl_cons]
    refine ih _ ?_
    rw [show (resume_step acc t).1.tasks = replaceTask acc.1.tasks t.id resume_reset from
      resume_one_tasks _ _ _]
    refine completedInv_replaceTask h ?_
    intro t0 hst
    simp [resume_reset] at hst

/-- Every mutating operation preserves the invariant. -/
theorem applyOp_completedInv (o : Op) (s : SysState) (h : completedInv s) :
    completedInv (applyOp o s).1 := by
  cases o with
  | update tid now u =>
    intro t' ht' hst
    rw [show (applyOp (.update tid now u) s).1.tasks =
      replaceTask s.tasks tid (update_task_row now u) from update_task_tasks s tid now u] at ht'
    exact completedInv_replaceTask h
      (fun t0 => update_task_row_completed_progress now u t0) t' ht' hst
  | retry tid =>
    intro t' ht' hst
    rw [show (applyOp (.retry tid) s).1.tasks =
      replaceTask s.tasks tid retry_reset from retry_task_tasks s tid] at ht'
    refine completedInv_replaceTask h ?_ t' ht' hst
    intro t0 hst0
    simp [retry_reset] at hst0
  | cancel tid =>
    intro t' ht' hst
    rw [show (applyOp (.cancel tid) s).1.tasks =
      replaceTask s.tasks tid cancel_reset from cancel_task_tasks s tid] at ht'
    refine completedInv_replaceTask h ?_ t' ht' hst
    intro t0 hst0
    simp [cancel_reset] at hst0
  | delete tid owner =>
    intro t' ht' hst
    simp only [applyOp, delete_task] at ht'
    cases hfind : ((cancel_job s tid).1.tasks).find?
        (fun t => t.id == tid && t.owner_id == owner) with
    | none =>
      rw [hfind] at ht'
      simp only [cancel_job_tasks] at ht'
      exact h t' ht' hst
    | some t =>
      rw [hfind] at ht'
      simp only at ht'
      have : t' ∈ (cancel_job s tid).1.tasks := List.mem_of_mem_filter ht'
      rw [cancel_job_tasks] at this
      exact h t' this hst
  | create a =>
    intro t' ht' hst
    by_cases hcond : (has_file_data a.file_data && !(s3_strict_ok s.s3)) = true
    · simp only [applyOp, create_task, if_pos hcond] at ht'
      exact h t' ht' hst
    · simp only [applyOp, create_task, if_neg hcond, schedule_tasks] at ht'
      rcases List.mem_append.mp ht' with h1 | h1
      · exact h t' h1 hst
      · rw [List.mem_singleton] at h1
        subst h1
        simp [new_task_row] at hst
  | resume =>
    unfold applyOp resume_stalled_tasks
    exact resume_fold_completedInv _ _ h

/-! ### Per-operation effect shapes -/

theorem cancel_job_effects_clean (s : SysState) (tid : String) :
    ∀ e ∈ (cancel_job s tid).2, isCacheOrNotify e = false := by
  unfold cancel_job
  split <;> simp [isCacheOrNotify]

theorem schedule_effects_clean (s : SysState) (tid : String) :
    ∀ e ∈ (schedule s tid).2, isCacheOrNotify e = false := by
  simp only [schedule]
  split
  · exact cancel_job_effects_clean s tid
  · intro e he
    rcases List.mem_append.mp he with h1 | h1
    · exact cancel_job_effects_clean s tid e h1
    · rw [List.mem_singleton] at h1
      subst h1
      rfl

theorem cancel_task_effects_clean (s : SysState) (tid : String) :
    ∀ e ∈ (cancel_task s tid).2.2, isCacheOrNotify e = false := by
  intro e he
  cases hf : findTask s.tasks tid with
  | none =>
    simp only [cancel_task, cancel_job_tasks, hf] at he
    exact cancel_job_effects_clean s tid e he
  | some t =>
    simp only [cancel_task, cancel_job_tasks, hf] at he
    rcases List.mem_append.mp he with h1 | h1
    · exact cancel_job_effects_clean s tid e h1
    · rw [List.mem_singleton] at h1
      subst h1
      rfl

theorem retry_task_effects_clean (s : SysState) (tid : String) :
    ∀ e ∈ (retry_task s tid).2.2, isCacheOrNotify e = false := by
  intro e he
  cases hf : findTask s.tasks tid with
  | none => simp [retry_task, hf] at he
  | some t =>
    simp only [retry_task, hf] at he
    rcases List.mem_append.mp he with h1 | h1
    · rcases List.mem_cons.mp h1 with h2 | h2
      · subst h2; rfl
      · rw [List.mem_singleton] at h2
        subst h2; rfl
    · exact schedule_effects_clean _ tid e h1

theorem update_task_effects (s : SysState) (tid : String) (now : Nat)
    (u : TaskUpdates) (t : Task) (hf : findTask s.tasks tid = some t) :
    (update_task s tid now u).2.2 =
      [Effect.dbWrite (update_task_row now u t).status, Effect.cacheInvalidate,
       Effect.cacheInvalidate, Effect.statusCacheWrite, Effect.notify] := by
  simp [update_task, hf]

theorem delete_task_no_notify (s : SysState) (tid owner : String) :
    Effect.notify ∉ (delete_task s tid owner).2.2 := by
  have hcj : Effect.notify ∉ (cancel_job s tid).2 := by
    unfold cancel_job
    split <;> simp
  simp only [delete_task]
  cases hfind : ((cancel_job s tid).1.tasks).find?
      (fun t => t.id == tid && t.owner_id == owner) with
  | none =>
    simp [List.mem_append, hcj]
  | some t =>
    simp only []
    intro hmem
    rcases List.mem_append.mp hmem with h1 | h1
    · rcases List.mem_append.mp h1 with h2 | h2
      · rcases List.mem_append.mp h2 with h3 | h3
        · rcases List.mem_append.mp h3 with h4 | h4
          · exact hcj h4
          · simp at h4
        · simp at h3
      · by_cases hs3 : s3_delete_ready s.s3 = true
        · rw [if_pos hs3] at h2
          rcases List.mem_append.mp h2 with h3 | h3
          · rcases List.mem_append.mp h3 with h4 | h4
            · simp at h4
            · simp at h4
          · cases hmin : t.mineru_task_id <;> rw [hmin] at h3 <;> simp at h3
        · rw [if_neg hs3] at h2
          simp at h2
    · simp at h1

theorem applyOp_cap (o : Op) (s : SysState) :
    (applyOp o s).1.max_concurrent_tasks = s.max_concurrent_tasks := by
  cases o with
  | update tid now u =>
    cases hf : findTask s.tasks tid with
    | none => simp [applyOp, update_task, hf]
    | some t => simp [applyOp, update_task, hf]
  | retry tid =>
    cases hf : findTask s.tasks tid with
    | none => simp [applyOp, retry_task, hf]
    | some t => simp [applyOp, retry_task, hf, schedule_cap]
  | cancel tid =>
    cases hf : findTask s.tasks tid with
    | none => simp [applyOp, cancel_task, cancel_job_tasks, hf, cancel_job_cap]
    | some t => simp [applyOp, cancel_task, cancel_job_tasks, hf, cancel_job_cap]
  | delete tid owner =>
    simp only [applyOp, delete_task]
    cases hfind : ((cancel_job s tid).1.tasks).find?
        (fun t => t.id == tid && t.owner_id == owner) with
    | none => simp [hfind, cancel_job_cap]
    | some t => simp [hfind, cancel_job_cap]
  | create a =>
    by_cases hcond : (has_file_data a.file_data && !(s3_strict_ok s.s3)) = true
    · rw [Bool.and_eq_true, Bool.not_eq_true'] at hcond
      simp [applyOp, create_task, hcond.1, hcond.2]
    · rw [Bool.and_eq_true, Bool.not_eq_true'] at hcond
      simp [applyOp, create_task, hcond, schedule_cap]
  | resume =>
    unfold applyOp resume_stalled_tasks
    exact resume_fold_cap _ _

/-! ### Concrete sample fixtures used by witnesses and counterexamples -/

/-- A fully configured blob store. -/
def sampleS3 : S3Config :=
  { endpoint := "http://minio:9000", access_key := "AK", secret_key := "SK",
    bucket := "pdfs", region := "us-east-1" }

/-- A blob store with no settings stored at all. -/
def emptyS3 : S3Config :=
  { endpoint := "", access_key := "", secret_key := "", bucket := "", region := "" }

/-- A task in mid-execution. -/
def baseTask : Task :=
  { id := "t1", owner_id := "u1", priority := "normal", status := "processing"
    progress := 50, progress_message := some "翻译中", error := none
    completed_at := none, input_s3_key := some "uploads/u1/t1/input.pdf"
    output_s3_key := none, output_url := none
    mono_output_s3_key := none, mono_output_url := none
    dual_output_s3_key := none, dual_output_url := none
    glossary_output_s3_key := none, glossary_output_url := none
    zip_output_s3_key := none, zip_output_url := none
    markdown_output_s3_key := none, markdown_output_url := none
    translated_markdown_s3_key := none, translated_markdown_url := none
    mineru_task_id := none }

/-- A task that already finished successfully at time 5. -/
def doneTask : Task :=
  { baseTask with id := "t2", status := "completed", progress := 100
                  completed_at := some 5 }

/-- A running system with one in-flight job and two rows. -/
def baseState : SysState :=
  { tasks := [baseTask, doneTask], redis := [], jobs := ["t1"]
    max_concurrent_tasks := 3, s3 := sampleS3, settings := [] }

/-! ### Claim C1 -/

/-- C1, counterexample: a completed-retried-recompleted lifetime assigns
`completed_at` twice (first `10`, then — after `retry` cleared it — `20`),
refuting "the completed_at timestamp is assigned exactly once over the task's
whole lifetime including retry and re-completion cycles". -/
theorem c1_counterexample :
    let s1 := (applyOp (Op.update "t1" 10 { status := some "completed" }) baseState).1
    let s2 := (applyOp (Op.retry "t1") s1).1
    let s3 := (applyOp (Op.update "t1" 20 { status := some "completed" }) s2).1
    (findTask s1.tasks "t1").map Task.completed_at = some (some 10) ∧
    (findTask s2.tasks "t1").map Task.completed_at = some none ∧
    (findTask s3.tasks "t1").map Task.completed_at = some (some 20) := by
  decide

/-- C1 (amended): every operation preserves the invariant that a `completed`
row has progress 100; a status update (`_update_task`) never overwrites an
already-set `completed_at`; but `retry_task` resets `completed_at` to null, so
a re-completion after retry assigns a fresh timestamp. -/
theorem c1_amended_completed_invariant :
    (∀ (o : Op) (s : SysState), completedInv s → completedInv (applyOp o s).1) ∧
    (∀ (s : SysState) (tid : String) (now : Nat) (u : TaskUpdates) (t : Task) (v : Nat),
      findTask s.tasks tid = some t → t.completed_at = some v →
      (update_task s tid now u).1 = some (update_task_row now u t) ∧
      (update_task_row now u t).completed_at = some v) ∧
    (∀ (s : SysState) (tid : String) (t : Task),
      findTask s.tasks tid = some t →
      (retry_task s tid).1 = some (retry_reset t) ∧
      (retry_reset t).completed_at = none) := by
  refine ⟨applyOp_completedInv, ?_, ?_⟩
  · intro s tid now u t v hf hv
    exact ⟨by simp [update_task, hf], update_task_row_keeps_completed_at now u t v hv⟩
  · intro s tid t hf
    exact ⟨by simp [retry_task, hf], rfl⟩

/-- C1 witness: the amended claim evaluated on the sample state. -/
theorem c1_witness :
    completedInv (applyOp (Op.cancel "t1") baseState).1 ∧
    ((update_task baseState "t2" 10 { progress := some 70 }).1 =
        some (update_task_row 10 { progress := some 70 } doneTask) ∧
      (update_task_row 10 { progress := some 70 } doneTask).completed_at = some 5) ∧
    ((retry_task baseState "t1").1 = some (retry_reset baseTask) ∧
      (retry_reset baseTask).completed_at = none) :=
  ⟨c1_amended_completed_invariant.1 (Op.cancel "t1") baseState (by decide),
   c1_amended_completed_invariant.2.1 baseState "t2" 10 { progress := some 70 }
     doneTask 5 (by decide) (by decide),
   c1_amended_completed_invariant.2.2 baseState "t1" baseTask (by decide)⟩

/-! ### Claim C2 -/

/-- C2, counterexample: `cancel_task` commits its durable write but performs
no cache invalidation and no notification at all, refuting "every mutating
facade operation … invalidates the relevant cache entries and then pushes a
notification … as its last step". -/
theorem c2_counterexample :
    Effect.dbWrite "canceled" ∈ (applyOp (Op.cancel "t1") baseState).2 ∧
    Effect.cacheInvalidate ∉ (applyOp (Op.cancel "t1") baseState).2 ∧
    Effect.notify ∉ (applyOp (Op.cancel "t1") baseState).2 := by
  decide

/-- C2 (amended): no operation ever invalidates a cache or notifies before
its first durable write; `_update_task` (on an existing row) follows exactly
write → invalidate → invalidate → status-cache → notify; but `cancel` and
`retry` perform no invalidation and no notification at all, and `delete`
invalidates after its durable delete without ever notifying. -/
theorem c2_amended_effect_order :
    (∀ (o : Op) (s : SysState), writeFirst (applyOp o s).2 = true) ∧
    (∀ (s : SysState) (tid : String) (now : Nat) (u : TaskUpdates) (t : Task),
      findTask s.tasks tid = some t →
      (update_task s tid now u).2.2 =
        [Effect.dbWrite (update_task_row now u t).status, Effect.cacheInvalidate,
         Effect.cacheInvalidate, Effect.statusCacheWrite, Effect.notify]) ∧
    (∀ (s : SysState) (tid : String),
      ∀ e ∈ (cancel_task s tid).2.2, isCacheOrNotify e = false) ∧
    (∀ (s : SysState) (tid : String),
      ∀ e ∈ (retry_task s tid).2.2, isCacheOrNotify e = false) ∧
    (∀ (s : SysState) (tid owner : String),
      Effect.notify ∉ (delete_task s tid owner).2.2) :=
  ⟨applyOp_writeFirst,
   fun s tid now u t hf => update_task_effects s tid now u t hf,
   cancel_task_effects_clean, retry_task_effects_clean, delete_task_no_notify⟩

/-- C2 witness: the amended claim evaluated on the sample state. -/
theorem c2_witness :
    writeFirst (applyOp (Op.update "t1" 3 { progress := some 5 }) baseState).2 = true ∧
    (update_task baseState "t1" 3 { progress := some 5 }).2.2 =
      [Effect.dbWrite (update_task_row 3 { progress := some 5 } baseTask).status,
       Effect.cacheInvalidate, Effect.cacheInvalidate, Effect.statusCacheWrite,
       Effect.notify] ∧
    (∀ e ∈ (cancel_task baseState "t1").2.2, isCacheOrNotify e = false) ∧
    (∀ e ∈ (retry_task baseState "t1").2.2, isCacheOrNotify e = false) ∧
    Effect.notify ∉ (delete_task baseState "t1" "u1").2.2 :=
  ⟨c2_amended_effect_order.1 (Op.update "t1" 3 { progress := some 5 }) baseState,
   c2_amended_effect_order.2.1 baseState "t1" 3 { progress := some 5 } baseTask (by decide),
   c2_amended_effect_order.2.2.1 baseState "t1",
   c2_amended_effect_order.2.2.2.1 baseState "t1",
   c2_amended_effect_order.2.2.2.2 baseState "t1" "u1"⟩

/-! ### Claim C3 -/

/-- A state whose normal-priority queue still holds the task id. -/
def queuedState : SysState :=
  { baseState with redis := [("tasks:normal", ["t1"])] }

/-- C3, counterexample: after `cancel_task` the id is still in the
normal-priority queue — `cancel` does not touch the queues at all, refuting
"the cancel operation removes that id from all three priority queue lists". -/
theorem c3_counterexample :
    "t1" ∈ lget (cancel_task queuedState "t1").2.1.redis "tasks:normal" := by
  decide

/-- C3 (amended): only `delete_task` purges the id from the three priority
queues (every occurrence, before the ownership check); `cancel_task` leaves
the Redis queues untouched, so a canceled task that is still enqueued remains
eligible for re-dispatch by the monitor loop. -/
theorem c3_amended_queue_removal :
    (∀ (s : SysState) (tid : String), (cancel_task s tid).2.1.redis = s.redis) ∧
    (∀ (s : SysState) (tid owner : String),
      tid ∉ lget (delete_task s tid owner).2.1.redis "tasks:high" ∧
      tid ∉ lget (delete_task s tid owner).2.1.redis "tasks:normal" ∧
      tid ∉ lget (delete_task s tid owner).2.1.redis "tasks:low") := by
  constructor
  · intro s tid
    cases hf : findTask s.tasks tid with
    | none => simp [cancel_task, cancel_job_tasks, cancel_job_redis, hf]
    | some t => simp [cancel_task, cancel_job_tasks, cancel_job_redis, hf]
  · intro s tid owner
    have hspec := remove_all_queues_spec ((cancel_job s tid).1.redis) tid
    simp only [delete_task]
    cases hfind : ((cancel_job s tid).1.tasks).find?
        (fun t => t.id == tid && t.owner_id == owner) with
    | none => simpa [hfind] using hspec
    | some t => simpa [hfind] using hspec

/-! ### Claim C4 -/

/-- C4, code bug: `update_performance_settings` commits the new
`max_concurrent_tasks` setting and then calls `task_manager.reload_config()`,
but `class TaskManager` defines no `reload_config` method, so the route
raises `AttributeError` on every call; the scheduler's in-memory cap (the
hard-coded 3 from `__init__`) is never changed by it nor by any task
operation, so the cap is not hot-reloadable. -/
theorem c4_no_reload_config :
    "reload_config" ∉ taskManagerMethods ∧
    taskManager_init_max_concurrent = 3 ∧
    (∀ (s : SysState) (r : PerformanceSettingsRequest),
      (update_performance_settings s r).1 =
        Except.error "AttributeError: TaskManager object has no attribute reload_config" ∧
      (update_performance_settings s r).2.max_concurrent_tasks =
        s.max_concurrent_tasks) ∧
    (∀ (o : Op) (s : SysState),
      (applyOp o s).1.max_concurrent_tasks = s.max_concurrent_tasks) := by
  have hmem : "reload_config" ∉ taskManagerMethods := by decide
  refine ⟨hmem, rfl, ?_, applyOp_cap⟩
  intro s r
  constructor
  · simp [update_performance_settings, hmem]
  · simp [update_performance_settings, hmem]

/-! ### Claim C5 -/

/-- The system with nothing configured in the blob-store settings. -/
def unconfiguredState : SysState :=
  { baseState with s3 := emptyS3 }

/-- Creation request carrying no file bytes. -/
def noFileArgs : CreateArgs :=
  { task_id := "t9", owner_id := "u1", owner_email := "u1@example.com"
    document_name := "doc.pdf", priority := "normal", file_data := none }

/-- Creation request carrying file bytes. -/
def fileArgs : CreateArgs :=
  { noFileArgs with task_id := "t8", file_data := some [37, 80, 68, 70] }

/-- C5, counterexample: with the blob store unconfigured but no file bytes
supplied, `create_task` does not fail — it inserts the row, enqueues it, and
notifies, refuting "for every create call, if the blob store is not
configured, create fails … before any state is persisted". -/
theorem c5_counterexample :
    (findTask (applyOp (Op.create noFileArgs) unconfiguredState).1.tasks "t9").isSome = true ∧
    "t9" ∈ lget (applyOp (Op.create noFileArgs) unconfiguredState).1.redis "tasks:normal" ∧
    Effect.notify ∈ (applyOp (Op.create noFileArgs) unconfiguredState).2 := by
  decide

/-- C5 (amended): only when truthy file bytes are supplied does `create_task`
check the strict blob-store configuration; in that case an unconfigured store
makes it fail with `MissingS3Configuration` before any state is persisted —
no row, no queue entry, no notification, no effect at all. -/
theorem c5_amended_fail_fast :
    ∀ (s : SysState) (a : CreateArgs),
      has_file_data a.file_data = true → s3_strict_ok s.s3 = false →
      create_task s a = Except.error CreateError.missingS3Configuration ∧
      applyOp (Op.create a) s = (s, []) := by
  intro s a hup hok
  constructor
  · simp [create_task, hup, hok]
  · simp [applyOp, create_task, hup, hok]

/-- C5 witness: the amended claim evaluated at a concrete file-bearing
request against the unconfigured store. -/
theorem c5_witness :
    create_task unconfiguredState fileArgs =
      Except.error CreateError.missingS3Configuration ∧
    applyOp (Op.create fileArgs) unconfiguredState = (unconfiguredState, []) :=
  c5_amended_fail_fast unconfiguredState fileArgs (by decide) (by decide)

/-! ### Claim C6 -/

/-- A parsing task that produced a ZIP artifact and then failed. -/
def zipTask : Task :=
  { baseTask with
    id := "t3"
    status := "failed"
    error := some "provider error"
    zip_output_s3_key := some "outputs/u1/t3/output.zip"
    zip_output_url := some "presigned:outputs/u1/t3/output.zip" }

/-- State holding the ZIP-bearing task. -/
def zipState : SysState :=
  { baseState with tasks := [zipTask] }

/-- C6, counterexample: after `retry_task` the ZIP output artifact fields are
still set, refuting "retry … clears the error field and all output artifact
fields (keys and URLs)" — the source resets every other output column but
never touches `zip_output_s3_key` / `zip_output_url`. -/
theorem c6_counterexample :
    (findTask (retry_task zipState "t3").2.1.tasks "t3").map Task.zip_output_s3_key =
      some (some "outputs/u1/t3/output.zip") ∧
    (findTask (retry_task zipState "t3").2.1.tasks "t3").map Task.zip_output_url =
      some (some "presigned:outputs/u1/t3/output.zip") := by
  decide

/-- C6 (amended): for an existing task, retry resets progress to 0 and status
to `queued` immediately (before any asynchronous execution), clears the error
and every output artifact field except the ZIP output key and URL (which the
source leaves untouched), and also clears `mineru_task_id` and
`completed_at`; for a missing id it returns the not-found indicator and
changes nothing. -/
theorem c6_amended_retry_resets :
    (∀ (s : SysState) (tid : String) (t : Task),
      findTask s.tasks tid = some t →
      (retry_task s tid).1 = some (retry_reset t) ∧
      findTask (retry_task s tid).2.1.tasks tid = some (retry_reset t) ∧
      (retry_reset t).status = "queued" ∧ (retry_reset t).progress = 0 ∧
      (retry_reset t).error = none ∧
      (retry_reset t).output_s3_key = none ∧ (retry_reset t).output_url = none ∧
      (retry_reset t).mono_output_s3_key = none ∧
      (retry_reset t).mono_output_url = none ∧
      (retry_reset t).dual_output_s3_key = none ∧
      (retry_reset t).dual_output_url = none ∧
      (retry_reset t).glossary_output_s3_key = none ∧
      (retry_reset t).glossary_output_url = none ∧
      (retry_reset t).markdown_output_s3_key = none ∧
      (retry_reset t).markdown_output_url = none ∧
      (retry_reset t).translated_markdown_s3_key = none ∧
      (retry_reset t).translated_markdown_url = none ∧
      (retry_reset t).mineru_task_id = none ∧
      (retry_reset t).completed_at = none ∧
      (retry_reset t).zip_output_s3_key = t.zip_output_s3_key ∧
      (retry_reset t).zip_output_url = t.zip_output_url) ∧
    (∀ (s : SysState) (tid : String),
      findTask s.tasks tid = none → retry_task s tid = (none, s, [])) := by
  constructor
  · intro s tid t hf
    refine ⟨by simp [retry_task, hf], ?_, rfl, rfl, rfl, rfl, rfl, rfl, rfl, rfl,
      rfl, rfl, rfl, rfl, rfl, rfl, rfl, rfl, rfl, rfl, rfl⟩
    rw [retry_task_tasks, findTask_replaceTask s.tasks tid retry_reset (fun x => rfl), hf]
    rfl
  · intro s tid hf
    simp [retry_task, hf]

/-- C6 witness: the amended claim evaluated on the ZIP-bearing task and on a
missing id. -/
theorem c6_witness :
    ((retry_task zipState "t3").1 = some (retry_reset zipTask) ∧
      findTask (retry_task zipState "t3").2.1.tasks "t3" = some (retry_reset zipTask) ∧
      (retry_reset zipTask).status = "queued" ∧ (retry_reset zipTask).progress = 0 ∧
      (retry_reset zipTask).error = none ∧
      (retry_reset zipTask).output_s3_key = none ∧
      (retry_reset zipTask).output_url = none ∧
      (retry_reset zipTask).mono_output_s3_key = none ∧
      (retry_reset zipTask).mono_output_url = none ∧
      (retry_reset zipTask).dual_output_s3_key = none ∧
      (retry_reset zipTask).dual_output_url = none ∧
      (retry_reset zipTask).glossary_output_s3_key = none ∧
      (retry_reset zipTask).glossary_output_url = none ∧
      (retry_reset zipTask).markdown_output_s3_key = none ∧
      (retry_reset zipTask).markdown_output_url = none ∧
      (retry_reset zipTask).translated_markdown_s3_key = none ∧
      (retry_reset zipTask).translated_markdown_url = none ∧
      (retry_reset zipTask).mineru_task_id = none ∧
      (retry_reset zipTask).completed_at = none ∧
      (retry_reset zipTask).zip_output_s3_key = zipTask.zip_output_s3_key ∧
      (retry_reset zipTask).zip_output_url = zipTask.zip_output_url) ∧
    retry_task zipState "t4" = (none, zipState, []) :=
  ⟨c6_amended_retry_resets.1 zipState "t3" zipTask (by decide),
   c6_amended_retry_resets.2 zipState "t4" (by decide)⟩

/-! ### Claim C7 -/

/-- C7: within one priority tier the queue is FIFO — enqueueing `[a, b, c]`
into an empty tier (LPUSH) and dequeuing three times (RPOP) yields `a`, `b`,
`c` in that order. -/
theorem fifo_within_tier (a b c p : String) :
    (dequeue_task (enqueue_task (enqueue_task (enqueue_task [] a p) b p) c p) p).1 =
      some a ∧
    (dequeue_task (dequeue_task
      (enqueue_task (enqueue_task (enqueue_task [] a p) b p) c p) p).2 p).1 = some b ∧
    (dequeue_task (dequeue_task (dequeue_task
      (enqueue_task (enqueue_task (enqueue_task [] a p) b p) c p) p).2 p).2 p).1 =
      some c := by
  simp [enqueue_task, dequeue_task, lget, lset, List.getLast?]

/-! ### Claim C8 -/

/-- C8: `resume_stalled_tasks` resets every `processing` row to `queued` with
progress 0 and the recovery message and re-enqueues its id at its priority;
and it is idempotent — a second consecutive run returns the state unchanged
with no effects (no task row and no queue is touched). -/
theorem c8_resume_stalled :
    (∀ (s : SysState) (t : Task), t ∈ s.tasks → t.status = "processing" →
      (∀ t' ∈ (resume_stalled_tasks s).1.tasks, t'.id = t.id →
        t'.status = "queued" ∧ t'.progress = 0 ∧
        t'.progress_message = some "系统重启自动恢复，已重新排队") ∧
      t.id ∈ lget (resume_stalled_tasks s).1.redis ("tasks:" ++ t.priority)) ∧
    (∀ s : SysState,
      resume_stalled_tasks (resume_stalled_tasks s).1 =
        ((resume_stalled_tasks s).1, [])) := by
  constructor
  · intro s t ht hp
    have hmem : t ∈ s.tasks.filter (fun x => x.status == "processing") :=
      List.mem_filter.mpr ⟨ht, by simp [hp]⟩
    obtain ⟨l1, l2, hsplit⟩ := List.append_of_mem hmem
    have hunfold : resume_stalled_tasks s =
        l2.foldl resume_step (resume_step (l1.foldl resume_step (s, [])) t) := by
      unfold resume_stalled_tasks
      rw [hsplit, List.foldl_append, List.foldl_cons]
    constructor
    · rw [hunfold]
      exact resume_fold_recovered l2 _ t.id
        (resume_one_recovered_self (l1.foldl resume_step (s, [])).1 t.id t.priority)
    · rw [hunfold]
      have hex : ∃ x ∈ (l1.foldl resume_step (s, ([] : List Effect))).1.tasks, x.id = t.id :=
        resume_fold_exists_id l1 (s, []) t.id ⟨t, ht, rfl⟩
      exact resume_fold_redis_mono l2 _ t.id _
        (resume_one_enqueues (l1.foldl resume_step (s, [])).1 t.id t.priority hex)
  · exact resume_stalled_second_run

/-- C8 witness: recovery evaluated on the sample state whose task `t1` is in
`processing`. -/
theorem c8_witness :
    ((∀ t' ∈ (resume_stalled_tasks baseState).1.tasks, t'.id = baseTask.id →
        t'.status = "queued" ∧ t'.progress = 0 ∧
        t'.progress_message = some "系统重启自动恢复，已重新排队") ∧
      baseTask.id ∈ lget (resume_stalled_tasks baseState).1.redis
        ("tasks:" ++ baseTask.priority)) ∧
    resume_stalled_tasks (resume_stalled_tasks baseState).1 =
      ((resume_stalled_tasks baseState).1, []) :=
  ⟨c8_resume_stalled.1 baseState baseTask (by decide) rfl,
   c8_resume_stalled.2 baseState⟩

/-! ### Claim C9 -/

/-- C9: in the translate workflow, a provider call that reports success but
yields neither a mono nor a dual variant ends with the row `failed`, progress
0 and the diagnostic message, and no durable write of the whole finish phase
ever carries status `completed`. -/
theorem c9_no_output_means_failed :
    ∀ (s : SysState) (tid : String) (now : Nat) (owner : String)
      (r : TranslateResult) (t : Task),
      r.success = true → r.mono = none → r.dual = none →
      findTask s.tasks tid = some t → t.status = "processing" →
      (∃ t', findTask (lifecycle_translation_finish s tid now owner r).1.tasks tid =
          some t' ∧
        t'.status = "failed" ∧ t'.progress = 0 ∧
        t'.error = some "翻译完成但未找到输出文件" ∧
        t'.progress_message = some "翻译完成但未找到输出文件") ∧
      (∀ st, Effect.dbWrite st ∈ (lifecycle_translation_finish s tid now owner r).2 →
        st ≠ "completed") := by
  intro s tid now owner r t hs hm hd hf hst
  have ht1 : update_task_row now
      { progress := some 80, progress_message := some (some "翻译完成，准备上传结果…") } t =
      applyUpdates t
        { progress := some 80, progress_message := some (some "翻译完成，准备上传结果…") } := by
    simp [update_task_row, applyUpdates, hst]
  have ht1s : (update_task_row now
      { progress := some 80, progress_message := some (some "翻译完成，准备上传结果…") } t).status =
      "processing" := by
    rw [ht1]
    simpa [applyUpdates] using hst
  have hf1 : findTask (update_task s tid now
      { progress := some 80, progress_message := some (some "翻译完成，准备上传结果…") }).2.1.tasks
      tid = some (update_task_row now
        { progress := some 80, progress_message := some (some "翻译完成，准备上传结果…") } t) := by
    rw [update_task_tasks, findTask_replaceTask s.tasks tid _
      (update_task_row_id now _), hf]
    rfl
  have he1 := update_task_effects s tid now
    { progress := some 80, progress_message := some (some "翻译完成，准备上传结果…") } t hf
  simp only [lifecycle_translation_finish, hs, hm, hd, upload_variant, if_true,
    Option.isNone_none, Bool.and_self, if_pos]
  have hf2 : findTask (update_task (update_task s tid now
      { progress := some 80, progress_message := some (some "翻译完成，准备上传结果…") }).2.1 tid now
      { status := some "failed", error := some (some "翻译完成但未找到输出文件")
        progress := some 0, progress_message := some (some "翻译完成但未找到输出文件") }).2.1.tasks
      tid = some (update_task_row now
        { status := some "failed", error := some (some "翻译完成但未找到输出文件")
          progress := some 0, progress_message := some (some "翻译完成但未找到输出文件") }
        (update_task_row now
          { progress := some 80, progress_message := some (some "翻译完成，准备上传结果…") } t)) := by
    rw [update_task_tasks, findTask_replaceTask _ tid _ (update_task_row_id now _), hf1]
    rfl
  have he2 := update_task_effects (update_task s tid now
      { progress := some 80, progress_message := some (some "翻译完成，准备上传结果…") }).2.1 tid now
      { status := some "failed", error := some (some "翻译完成但未找到输出文件")
        progress := some 0, progress_message := some (some "翻译完成但未找到输出文件") }
      (update_task_row now
        { progress := some 80, progress_message := some (some "翻译完成，准备上传结果…") } t) hf1
  have ht2eq : update_task_row now
      { status := some "failed", error := some (some "翻译完成但未找到输出文件")
        progress := some 0, progress_message := some (some "翻译完成但未找到输出文件") }
      (update_task_row now
        { progress := some 80, progress_message := some (some "翻译完成，准备上传结果…") } t) =
      applyUpdates (update_task_row now
        { progress := some 80, progress_message := some (some "翻译完成，准备上传结果…") } t)
        { status := some "failed", error := some (some "翻译完成但未找到输出文件")
          progress := some 0, progress_message := some (some "翻译完成但未找到输出文件") } := by
    simp [update_task_row, applyUpdates]
  constructor
  · refine ⟨_, hf2, ?_, ?_, ?_, ?_⟩ <;> rw [ht2eq] <;> rfl
  · intro st hmem
    rw [he1] at hmem
    rw [he2] at hmem
    cases hg : r.glossary with
    | none =>
      rw [hg] at hmem
      simp only [upload_variant, List.append_nil, List.nil_append, List.mem_append,
        List.mem_cons, List.not_mem_nil, or_false] at hmem
      rcases hmem with h1 | h1
      · rcases h1 with h2 | h2
        · rw [Effect.dbWrite.injEq] at h2
          rw [h2, ht1s]
          decide
        · simp at h2
      · rcases h1 with h2 | h2
        · rw [Effect.dbWrite.injEq] at h2
          rw [h2, ht2eq]
          simp [applyUpdates]
        · simp at h2
    | some g =>
      rw [hg] at hmem
      simp only [upload_variant, List.append_nil, List.nil_append, List.mem_append,
        List.mem_cons, List.not_mem_nil, or_false, List.mem_singleton] at hmem
      rcases hmem with h1 | h1
      · rcases h1 with h2 | h2
        · rcases h2 with h3 | h3
          · rw [Effect.dbWrite.injEq] at h3
            rw [h3, ht1s]
            decide
          · simp at h3
        · simp at h2
      · rcases h1 with h2 | h2
        · rw [Effect.dbWrite.injEq] at h2
          rw [h2, ht2eq]
          simp [applyUpdates]
        · simp at h2

/-- The provider outcome that succeeds without producing any variant. -/
def noOutputResult : TranslateResult :=
  { success := true, error := none, mono := none, dual := none, glossary := none }

/-- C9 witness: the theorem evaluated on the sample in-flight task. -/
theorem c9_witness :
    (∃ t', findTask (lifecycle_translation_finish baseState "t1" 7 "u1"
        noOutputResult).1.tasks "t1" = some t' ∧
      t'.status = "failed" ∧ t'.progress = 0 ∧
      t'.error = some "翻译完成但未找到输出文件" ∧
      t'.progress_message = some "翻译完成但未找到输出文件") ∧
    (∀ st, Effect.dbWrite st ∈ (lifecycle_translation_finish baseState "t1" 7 "u1"
        noOutputResult).2 → st ≠ "completed") :=
  c9_no_output_means_failed baseState "t1" 7 "u1" noOutputResult baseTask
    rfl rfl rfl (by decide) rfl

/-! ### Claim C10 -/

/-- C10: deleting with an id/owner pair that matches no row returns
`"not_found"`, yet the operation has already canceled any in-flight handle
for the id and purged the id from all three priority queues; the task table
itself is unchanged. -/
theorem c10_delete_not_found_side_effects :
    ∀ (s : SysState) (tid owner : String),
      (∀ t ∈ s.tasks, ¬(t.id = tid ∧ t.owner_id = owner)) →
      (delete_task s tid owner).1 = "not_found" ∧
      (delete_task s tid owner).2.1.tasks = s.tasks ∧
      tid ∉ (delete_task s tid owner).2.1.jobs ∧
      tid ∉ lget (delete_task s tid owner).2.1.redis "tasks:high" ∧
      tid ∉ lget (delete_task s tid owner).2.1.redis "tasks:normal" ∧
      tid ∉ lget (delete_task s tid owner).2.1.redis "tasks:low" := by
  intro s tid owner hno
  have hfind : ((cancel_job s tid).1.tasks).find?
      (fun t => t.id == tid && t.owner_id == owner) = none := by
    rw [cancel_job_tasks]
    apply List.find?_eq_none.mpr
    intro t ht
    simpa using hno t ht
  have hspec := remove_all_queues_spec ((cancel_job s tid).1.redis) tid
  simp only [delete_task, hfind]
  refine ⟨trivial, cancel_job_tasks s tid, cancel_job_not_mem s tid,
    hspec.1, hspec.2.1, hspec.2.2⟩

/-- C10 witness: deleting `t1` as the wrong owner `u2` on a state where `t1`
is in-flight and enqueued. -/
theorem c10_witness :
    (delete_task queuedState "t1" "u2").1 = "not_found" ∧
    (delete_task queuedState "t1" "u2").2.1.tasks = queuedState.tasks ∧
    "t1" ∉ (delete_task queuedState "t1" "u2").2.1.jobs ∧
    "t1" ∉ lget (delete_task queuedState "t1" "u2").2.1.redis "tasks:high" ∧
    "t1" ∉ lget (delete_task queuedState "t1" "u2").2.1.redis "tasks:normal" ∧
    "t1" ∉ lget (delete_task queuedState "t1" "u2").2.1.redis "tasks:low" :=
  c10_delete_not_found_side_effects queuedState "t1" "u2" (by decide)

end PDFTranslate
